import Mathlib

/-!
Verification model of the aiida-atomistic StructureData engine
(mutable and immutable structure representations, site model,
validation, derived properties, kind detection, builder mutators).

Numbers that the Python code handles as floats are embedded as exact
decimal fixed-point values (`Dec`, an integer mantissa over a power of
ten), which represents every numeric literal appearing in the recorded
examples exactly and keeps all definitions executable.  A homomorphism
`Dec.toRat` into the rationals is used to state the semantic
(arithmetic) properties.  Python distinguishes `1` from `1.0` in
dumped dictionaries, so per-site numeric fields that the code stores
verbatim are embedded as a tagged `PyNum` (int or float).
-/

set_option maxHeartbeats 1600000

namespace Atomistic

/-- Exact decimal number: value is `m / 10 ^ e`. -/
structure Dec where
  m : Int
  e : Nat
deriving DecidableEq

/-- Strip factors of ten so that equal values have equal representations. -/
def normAux : Int → Nat → Dec
  | m, 0 => ⟨m, 0⟩
  | m, Nat.succ e => if m % 10 = 0 then normAux (m / 10) e else ⟨m, Nat.succ e⟩

def Dec.add (a b : Dec) : Dec :=
  let e := max a.e b.e
  normAux (a.m * 10 ^ (e - a.e) + b.m * 10 ^ (e - b.e)) e

def Dec.mul (a b : Dec) : Dec :=
  normAux (a.m * b.m) (a.e + b.e)

def Dec.neg (a : Dec) : Dec := ⟨-a.m, a.e⟩

def Dec.abs (a : Dec) : Dec := if a.m < 0 then ⟨-a.m, a.e⟩ else a

/-- Boolean strict order on decimal values. -/
def Dec.blt (a b : Dec) : Bool := a.m * 10 ^ b.e < b.m * 10 ^ a.e

/-- Boolean non-strict order on decimal values. -/
def Dec.ble (a b : Dec) : Bool := a.m * 10 ^ b.e ≤ b.m * 10 ^ a.e

instance : Add Dec := ⟨Dec.add⟩
instance : Mul Dec := ⟨Dec.mul⟩
instance : Neg Dec := ⟨Dec.neg⟩
instance : Sub Dec := ⟨fun a b => a + (-b)⟩

instance (n : Nat) : OfNat Dec n := ⟨⟨(n : Int), 0⟩⟩

instance : OfScientific Dec :=
  ⟨fun m b e => if b then normAux (Int.ofNat m) e else ⟨(m : Int) * 10 ^ e, 0⟩⟩

/-- Semantics of a decimal number as a rational. -/
def Dec.toRat (a : Dec) : ℚ := (a.m : ℚ) / 10 ^ a.e

theorem toRat_normAux (m : Int) (e : Nat) :
    (normAux m e).toRat = (m : ℚ) / 10 ^ e := by
  induction e generalizing m with
  | zero => simp [normAux, Dec.toRat]
  | succ e ih =>
    rw [normAux]
    by_cases h : m % 10 = 0
    · obtain ⟨k, rfl⟩ := Int.dvd_of_emod_eq_zero h
      rw [if_pos h, ih, Int.mul_ediv_cancel_left k (by norm_num)]
      push_cast
      rw [pow_succ]
      field_simp
      ring
    · rw [if_neg h, Dec.toRat]

theorem mul_pow_div_pow (m : Int) (e E : Nat) (h : e ≤ E) :
    (m : ℚ) * 10 ^ (E - e) / 10 ^ E = (m : ℚ) / 10 ^ e := by
  rw [div_eq_div_iff (by positivity) (by positivity), mul_assoc, ← pow_add,
    Nat.sub_add_cancel h]

theorem toRat_add (a b : Dec) : (a + b).toRat = a.toRat + b.toRat := by
  show (Dec.add a b).toRat = _
  rw [Dec.add, toRat_normAux, Dec.toRat, Dec.toRat]
  push_cast
  rw [add_div, mul_pow_div_pow a.m a.e _ (Nat.le_max_left _ _),
    mul_pow_div_pow b.m b.e _ (Nat.le_max_right _ _)]

theorem toRat_mul (a b : Dec) : (a * b).toRat = a.toRat * b.toRat := by
  show (Dec.mul a b).toRat = _
  rw [Dec.mul, toRat_normAux]
  simp only [Dec.toRat]
  rw [div_mul_div_comm, ← pow_add]
  push_cast
  ring

theorem toRat_neg (a : Dec) : (-a).toRat = -a.toRat := by
  show (Dec.neg a).toRat = _
  simp only [Dec.neg, Dec.toRat]
  push_cast
  ring

theorem toRat_sub (a b : Dec) : (a - b).toRat = a.toRat - b.toRat := by
  show (a + (-b)).toRat = _
  rw [toRat_add, toRat_neg]
  ring

theorem toRat_abs (a : Dec) : (Dec.abs a).toRat = |a.toRat| := by
  have hp : (0 : ℚ) < 10 ^ a.e := by positivity
  rw [Dec.abs]
  by_cases h : a.m < 0
  · have hc : ((a.m : ℚ)) < 0 := by exact_mod_cast h
    rw [if_pos h]
    simp only [Dec.toRat]
    rw [abs_div, abs_of_pos hp, abs_of_neg hc]
    push_cast
    ring
  · have hc : (0 : ℚ) ≤ (a.m : ℚ) := by exact_mod_cast not_lt.mp h
    rw [if_neg h]
    simp only [Dec.toRat]
    rw [abs_div, abs_of_pos hp, abs_of_nonneg hc]

theorem blt_iff_toRat (a b : Dec) : Dec.blt a b = true ↔ a.toRat < b.toRat := by
  simp only [Dec.blt, Dec.toRat, decide_eq_true_eq]
  rw [div_lt_div_iff₀ (by positivity) (by positivity)]
  constructor
  · intro h
    exact_mod_cast h
  · intro h
    exact_mod_cast h

/-- A Python number as it appears in a dumped dictionary: the dump
distinguishes the integer `1` from the float `1.0`. -/
inductive PyNum where
  | int (z : Int)
  | float (d : Dec)
deriving DecidableEq

/-- Numeric value carried by a `PyNum`, forgetting the int/float tag. -/
def PyNum.val : PyNum → Dec
  | .int z => ⟨z, 0⟩
  | .float d => d

/-- Coercion applied when the code runs the value through Python's float
constructor: an int becomes the float of the same value. -/
def PyNum.toFloat : PyNum → PyNum
  | .int z => .float ⟨z, 0⟩
  | .float d => .float d

/-- Split a composite chemical symbol string at every uppercase letter. -/
def splitSymbolsAux : List Char → List Char → List String
  | [], acc => if acc.isEmpty then [] else [String.mk acc.reverse]
  | c :: cs, acc =>
    if c.isUpper && !acc.isEmpty then String.mk acc.reverse :: splitSymbolsAux cs [c]
    else splitSymbolsAux cs (c :: acc)

/-- Chemical species codes of a (possibly composite) symbol string,
in order: `parseSymbols "CuAl" = ["Cu", "Al"]`. -/
def parseSymbols (s : String) : List String := splitSymbolsAux s.data []

/-- Modelled from the spec: the static atomic-mass lookup table (a
required external resource, absent from the sources); restricted to the
species exercised by the recorded examples, with the values those
examples display. Unknown species yield `none`. -/
def atomicMass : String → Option Dec
  | "H" => some 1.008
  | "O" => some 15.999
  | "Al" => some 26.981538
  | "Si" => some 28.0855
  | "Fe" => some 55.845
  | "Cu" => some 63.546
  | _ => none

/-- Sum of the numeric values of a list of weights. -/
def weightSum (ws : List PyNum) : Dec :=
  ws.foldr (fun w acc => PyNum.val w + acc) 0

/-- Weighted sum of the tabulated atomic masses of the given species;
`none` when some species is unknown. -/
def computeMass (syms : List String) (ws : List PyNum) : Option Dec :=
  (syms.mapM atomicMass).map (fun ms =>
    (List.zipWith (fun mss w => mss * PyNum.val w) ms ws).foldr (fun a b => a + b) 0)

/-- One validated site, with the fields the dump displays. -/
structure Site where
  symbol : String
  kind_name : String
  position : List Dec
  mass : Dec
  charge : PyNum
  magmom : Option (List Dec)
  weights : List PyNum
deriving DecidableEq

/-- Raw per-site construction input (the site mapping of the
construction interface); `none` marks an omitted key. -/
structure SiteInput where
  symbol : String
  position : List Dec
  kind_name : Option String
  mass : Option Dec
  charge : Option PyNum
  magmom : Option (List Dec)
  weights : Option (List PyNum)
deriving DecidableEq

/-- Modelled from the spec (§4.2, the Site Model, whose implementation
is absent from the sources) with the defaults the recorded notebook
outputs display: omitted `kind_name` defaults to the symbol, omitted
`weights` to the integer tuple `(1,)`, omitted `charge` to the integer
`0` while a supplied charge is coerced to float, omitted `mass` is the
weighted sum of tabulated atomic masses, and an omitted `magmom` is
zero-filled to `[0.0, 0.0, 0.0]` on this construction path (recorded
output of the first notebook cell). Violations are aggregated. -/
def validateSite (a : SiteInput) : Except (List String) Site :=
  let syms := parseSymbols a.symbol
  let ws := a.weights.getD [PyNum.int 1]
  let wsum := weightSum ws
  let errs : List String :=
    (if a.position.length = 3 then [] else ["position must be a 3-vector"]) ++
    (if syms.isEmpty then ["empty symbol"] else []) ++
    (if ws.length = syms.length then [] else ["weights length mismatch"]) ++
    (if Dec.blt 0 wsum && Dec.ble wsum 1 then [] else ["weights sum out of range"]) ++
    (match a.mass, syms.mapM atomicMass with
      | some _, _ => []
      | none, some _ => []
      | none, none => ["UnknownSpeciesError"])
  if errs = [] then
    Except.ok {
      symbol := a.symbol
      kind_name := a.kind_name.getD a.symbol
      position := a.position
      mass := match a.mass with
        | some mss => mss
        | none => (computeMass syms ws).getD 0
      charge := match a.charge with
        | none => PyNum.int 0
        | some c => c.toFloat
      magmom := some (a.magmom.getD [0, 0, 0])
      weights := ws }
  else Except.error errs

/-- Raw structure construction input; `none` marks an omitted key. -/
structure StructInput where
  cell : Option (List (List Dec))
  pbc : Option (List Bool)
  sites : List SiteInput
  tot_charge : Option Dec
  tot_magnetization : Option Dec
  custom : Option (List (String × String))
deriving DecidableEq

/-- Validated field state shared by the mutable builder and the
immutable structure. -/
structure StructProps where
  cell : List (List Dec)
  pbc : List Bool
  sites : List Site
  tot_charge : Option Dec
  tot_magnetization : Option Dec
  custom : Option (List (String × String))
deriving DecidableEq

/-- Modelled from the spec: the default non-degenerate cell substituted
for a missing `cell` (the spec calls it an identity-like placeholder;
its exact numeric value does not appear in the sources). -/
def defaultCell : List (List Dec) := [[1, 0, 0], [0, 1, 0], [0, 0, 1]]

/-- Modelled from the spec (§4.1, the Property Schema, whose
implementation is absent from the sources): a missing `cell` is
replaced by `defaultCell` together with the non-fatal warning the
notebook records (`using default cell`); a missing `pbc` defaults to
three `true` entries; sites are validated by `validateSite`; all
violations are aggregated into one error list. The second component of
a successful result is the list of emitted warnings. -/
def validateFields (cell : List (List Dec)) (pbcIn : Option (List Bool))
    (sitesIn : List SiteInput) (tc tm : Option Dec)
    (cu : Option (List (String × String))) : Except (List String) StructProps :=
  let pbc := pbcIn.getD [true, true, true]
  let cellErrs : List String :=
    if cell.length = 3 && cell.all (fun r => r.length = 3) then []
    else ["cell must be a 3x3 matrix"]
  let pbcErrs : List String := if pbc.length = 3 then [] else ["pbc must have length 3"]
  let siteResults := sitesIn.map validateSite
  let siteErrs : List String :=
    siteResults.foldr (fun r acc => match r with
      | Except.error es => es ++ acc
      | Except.ok _ => acc) []
  let allErrs := cellErrs ++ pbcErrs ++ siteErrs
  if allErrs = [] then
    Except.ok {
      cell := cell
      pbc := pbc
      sites := siteResults.filterMap Except.toOption
      tot_charge := tc
      tot_magnetization := tm
      custom := cu }
  else Except.error allErrs

def validateStructure (d : StructInput) : Except (List String) (StructProps × List String) :=
  match d.cell with
  | none =>
    (validateFields defaultCell d.pbc d.sites d.tot_charge d.tot_magnetization d.custom).map
      (fun p => (p, ["using default cell"]))
  | some c =>
    (validateFields c d.pbc d.sites d.tot_charge d.tot_magnetization d.custom).map
      (fun p => (p, []))

/-- Entry `i j` of a cell matrix (`0` out of range). -/
def cellEntry (c : List (List Dec)) (i j : Nat) : Dec := (c.getD i []).getD j 0

/-- Determinant of the 3x3 cell matrix, by cofactor expansion. -/
def det3 (c : List (List Dec)) : Dec :=
  cellEntry c 0 0 * (cellEntry c 1 1 * cellEntry c 2 2 - cellEntry c 1 2 * cellEntry c 2 1)
    - cellEntry c 0 1 * (cellEntry c 1 0 * cellEntry c 2 2 - cellEntry c 1 2 * cellEntry c 2 0)
    + cellEntry c 0 2 * (cellEntry c 1 0 * cellEntry c 2 1 - cellEntry c 1 1 * cellEntry c 2 0)

/-- Cell volume: absolute value of the cell determinant. -/
def cellVolume (c : List (List Dec)) : Dec := Dec.abs (det3 c)

/-- A row of the cell, as a rational 3-vector. -/
def rowQ (c : List (List Dec)) (i : Nat) : ℚ × ℚ × ℚ :=
  ((cellEntry c i 0).toRat, (cellEntry c i 1).toRat, (cellEntry c i 2).toRat)

/-- Rational cross product of two 3-vectors. -/
def crossQ (u v : ℚ × ℚ × ℚ) : ℚ × ℚ × ℚ :=
  (u.2.1 * v.2.2 - u.2.2 * v.2.1,
   u.2.2 * v.1 - u.1 * v.2.2,
   u.1 * v.2.1 - u.2.1 * v.1)

/-- Rational dot product of two 3-vectors. -/
def dotQ (u v : ℚ × ℚ × ℚ) : ℚ :=
  u.1 * v.1 + u.2.1 * v.2.1 + u.2.2 * v.2.2

/-- Scalar triple product of the three cell row-vectors, over ℚ. -/
def tripleProductQ (c : List (List Dec)) : ℚ :=
  dotQ (rowQ c 0) (crossQ (rowQ c 1) (rowQ c 2))

/-- Dimensionality record of the dump. -/
structure Dimensionality where
  dim : Nat
  label : String
  value : Dec
deriving DecidableEq

/-- Modelled from the spec (§3): `dim` counts the periodic directions;
labels are volume / surface / line / atom. The recorded examples only
exercise the fully periodic case, whose measure is the cell volume; the
1D and 2D measures involve square roots, which the exact decimal model
cannot represent, and no claim refers to them, so they are rendered
as `0` here like the isolated case. -/
def dimensionalityOf (c : List (List Dec)) (pbc : List Bool) : Dimensionality :=
  let d := pbc.count true
  { dim := d
    label := if d = 3 then "volume" else if d = 2 then "surface"
      else if d = 1 then "line" else "atom"
    value := if d = 3 then cellVolume c else 0 }

/-- First-appearance deduplication. -/
def firstDedupAux [DecidableEq α] : List α → List α → List α
  | [], acc => acc.reverse
  | a :: l, acc => if a ∈ acc then firstDedupAux l acc else firstDedupAux l (a :: acc)

def firstDedup [DecidableEq α] (l : List α) : List α := firstDedupAux l []

/-- Index of the first occurrence, or the length when absent. -/
def idxOfKey [DecidableEq α] (a : α) : List α → Nat
  | [] => 0
  | b :: l => if a = b then 0 else idxOfKey a l + 1

/-- Chemical formula: symbol strings with their site counts, ordered by
first appearance, count omitted when it is one. -/
def formulaOf (syms : List String) : String :=
  (firstDedup syms).foldl (fun acc s =>
    acc ++ s ++ (if syms.count s = 1 then "" else toString (syms.count s))) ""

/-- The site properties compared when grouping sites into kinds:
symbol aside, these are the weight values, the mass, the charge value
and the magnetic moment. `kind_name` itself takes no part. The
recorded notebook example (two Fe sites, identical in everything but
`magmom`, detected as the distinct kinds `Fe0` and `Fe1`) shows the
magnetic moment participating in the comparison. -/
abbrev KindKey := List Dec × Dec × Dec × Option (List Dec)

def kindKey (s : Site) : KindKey :=
  (s.weights.map PyNum.val, s.mass, s.charge.val, s.magmom)

def siteTag (s : Site) : String × KindKey := (s.symbol, kindKey s)

/-- Auto-generated kind names, one per tagged site, scanning left to
right: each site is named `<symbol><index>`, where `index` is the
position of its key among the distinct keys already seen for that
symbol (in order of first appearance), or a fresh index for a new
key. -/
def assignNames : List (String × KindKey) → List (String × KindKey) → List String
  | [], _ => []
  | t :: rest, seen =>
    (t.1 ++ toString (idxOfKey t.2
        (firstDedup ((seen.filter (fun u => u.1 = t.1)).map (fun u => u.2)))))
      :: assignNames rest (seen ++ [t])

/-- Automatic kind detection: every site receives the auto-generated
`<symbol><index>` name of its property group (the notebook records
explicitly supplied kind names being replaced as well), and the
regenerated sites carry float weights (the recorded detection output
shows `(1.0,)` where the stored sites had `(1,)`). -/
def detectKinds (sites : List Site) : List Site :=
  List.zipWith (fun s n => { s with kind_name := n, weights := s.weights.map PyNum.toFloat })
    sites (assignNames (sites.map siteTag) [])

/-- The dumped dictionary (`to_dict`): the stored fields plus every
derived field the notebook shows. -/
structure StructDump where
  pbc : List Bool
  cell : List (List Dec)
  tot_charge : Option Dec
  tot_magnetization : Option Dec
  custom : Option (List (String × String))
  sites : List Site
  cell_volume : Dec
  dimensionality : Dimensionality
  charges : List PyNum
  magmoms : List (Option (List Dec))
  masses : List Dec
  kinds : List String
  symbols : List String
  positions : List (List Dec)
  formula : String
deriving DecidableEq

/-- The dump interface: stored fields verbatim plus the derived
per-site projections and aggregates; the flag triggers automatic kind
detection on the dumped sites first. -/
def toDict (p : StructProps) (detect : Bool) : StructDump :=
  let sites := if detect then detectKinds p.sites else p.sites
  { pbc := p.pbc
    cell := p.cell
    tot_charge := p.tot_charge
    tot_magnetization := p.tot_magnetization
    custom := p.custom
    sites := sites
    cell_volume := cellVolume p.cell
    dimensionality := dimensionalityOf p.cell p.pbc
    charges := sites.map Site.charge
    magmoms := sites.map Site.magmom
    masses := sites.map Site.mass
    kinds := sites.map Site.kind_name
    symbols := sites.map Site.symbol
    positions := sites.map Site.position
    formula := formulaOf (sites.map Site.symbol) }

/-- Site-level alloy flag: more than one weighted species. -/
def Site.is_alloy (s : Site) : Bool := decide (1 < s.weights.length)

/-- Site-level vacancy flag: occupation weights summing below one. -/
def Site.has_vacancies (s : Site) : Bool := Dec.blt (weightSum s.weights) 1

/-- Structure-level alloy flag. -/
def StructProps.is_alloy (p : StructProps) : Bool := p.sites.any Site.is_alloy

/-- Structure-level vacancy flag. -/
def StructProps.has_vacancies (p : StructProps) : Bool := p.sites.any Site.has_vacancies

/-- Builder mutator `add_atom`: appends one site built from the given
mapping. Recorded behavior (notebook cells building structures from
scratch and re-adding dumped sites): `kind_name`, `position`, `mass`
and `magmom` are taken verbatim (an absent `magmom` stays `None`), a
supplied `charge` is coerced to float (absent: integer `0`), and the
`weights` entry of the mapping is not used - the appended site carries
the default integer tuple `(1,)` even when the mapping supplied
`(1.0,)`. An unknown species with no explicit mass fails. -/
def addAtom (b : StructProps) (a : SiteInput) : Except (List String) StructProps :=
  let syms := parseSymbols a.symbol
  let wts := [PyNum.int 1]
  let massOpt : Option Dec :=
    match a.mass with
    | some mss => some mss
    | none => computeMass syms wts
  match massOpt with
  | none => Except.error ["UnknownSpeciesError"]
  | some mss => Except.ok { b with sites := b.sites ++ [{
      symbol := a.symbol
      kind_name := a.kind_name.getD a.symbol
      position := a.position
      mass := mss
      charge := match a.charge with
        | none => PyNum.int 0
        | some c => c.toFloat
      magmom := a.magmom
      weights := wts }] }

/-- Builder mutator `set_cell`: replaces the cell outright. -/
def setCell (b : StructProps) (c : List (List Dec)) : StructProps := { b with cell := c }

/-- Bulk per-site setter `set_charges`: positional, fails on a length
mismatch, coerces each value to float (recorded: `[1, 0]` is stored as
`[1.0, 0.0]`). -/
def setCharges (b : StructProps) (cs : List PyNum) : Except (List String) StructProps :=
  if cs.length = b.sites.length then
    Except.ok { b with sites := List.zipWith (fun s c => { s with charge := c.toFloat }) b.sites cs }
  else Except.error ["LengthMismatchError"]

/-- Bulk per-site setter `set_kind_names`: positional, fails on a
length mismatch. -/
def set_kind_names (b : StructProps) (ks : List String) : Except (List String) StructProps :=
  if ks.length = b.sites.length then
    Except.ok { b with sites := List.zipWith (fun s k => { s with kind_name := k }) b.sites ks }
  else Except.error ["LengthMismatchError"]

/-- Slicing `[i:j]`: a new instance keeping the selected sites and all
non-site fields verbatim. Recorded behavior: the sliced sites carry
float weights where the source stored the integer tuple `(1,)`; all
their other fields are verbatim copies. -/
def sliceStruct (b : StructProps) (i j : Nat) : StructProps :=
  { b with
    sites := ((b.sites.drop i).take (j - i)).map
      (fun s => { s with weights := s.weights.map PyNum.toFloat }) }

/-- Validity of a field state, as enforced on the immutable path:
3x3 cell, three pbc flags, and per-site invariants (3-vector
position, parsable symbol, matching weights length, weight sum in
the half-open unit interval). -/
def validSiteB (s : Site) : Bool :=
  s.position.length = 3 && !(parseSymbols s.symbol).isEmpty &&
    s.weights.length = (parseSymbols s.symbol).length &&
    Dec.blt 0 (weightSum s.weights) && Dec.ble (weightSum s.weights) 1

def validProps (p : StructProps) : Bool :=
  p.cell.length = 3 && p.cell.all (fun r => r.length = 3) && p.pbc.length = 3 &&
    p.sites.all validSiteB

/-- The immutable structure: a frozen, validated field state. -/
structure StructureData where
  props : StructProps
deriving DecidableEq

/-- The mutable builder: the same field state, editable. -/
structure StructureDataMutable where
  props : StructProps
deriving DecidableEq

/-- Modelled from the spec (§4.5, whose implementation is absent from
the sources): `to_immutable` snapshots the builder state, enforces the
full validation, and freezes an independent copy, never a partial
one; all field values are preserved exactly. -/
def StructureDataMutable.to_immutable (b : StructureDataMutable) :
    Except (List String) StructureData :=
  if validProps b.props then Except.ok ⟨b.props⟩ else Except.error ["ValidationError"]

/-- Modelled from the spec (§4.5): `to_mutable` yields a builder
pre-populated with an independent copy of every field. -/
def StructureData.to_mutable (s : StructureData) : StructureDataMutable := ⟨s.props⟩

def StructureData.to_dict (s : StructureData) (detect : Bool) : StructDump :=
  toDict s.props detect

def StructureDataMutable.to_dict (b : StructureDataMutable) (detect : Bool) : StructDump :=
  toDict b.props detect

/-- Slicing an immutable structure returns an immutable structure. -/
def StructureData.slice (s : StructureData) (i j : Nat) : StructureData :=
  ⟨sliceStruct s.props i j⟩

/-- Slicing a builder returns a builder. -/
def StructureDataMutable.slice (b : StructureDataMutable) (i j : Nat) : StructureDataMutable :=
  ⟨sliceStruct b.props i j⟩

/-! Concrete inputs recorded in the repository documentation. -/

/-- First site of the silicon example (first notebook cell). -/
def siSite1 : SiteInput := ⟨"Si", [0.75, 0.75, 0.75], none, none, none, none, none⟩

/-- Second site of the silicon example. -/
def siSite2 : SiteInput := ⟨"Si", [0.5, 0.5, 0.5], none, none, none, none, none⟩

/-- The silicon construction dictionary of the first notebook cell. -/
def siInput : StructInput :=
  ⟨some [[2.75, 2.75, 0], [0, 2.75, 2.75], [2.75, 0, 2.75]],
    some [true, true, true], [siSite1, siSite2], none, none, none⟩

/-- An empty construction call (no keys given). -/
def emptyInput : StructInput := ⟨none, none, [], none, none, none⟩

/-- The BCC iron construction dictionary of the kind-detection example:
both sites carry the explicit kind name Fe and differ only in their
magnetic moment (and position). -/
def feSite1 : SiteInput :=
  ⟨"Fe", [0, 0, 0], some "Fe", some 55.845, some (PyNum.float 0), some [2.5, 0.1, 0.1], none⟩

def feSite2 : SiteInput :=
  ⟨"Fe", [1.42015, 1.42015, 1.4201500000000002], some "Fe", some 55.845,
    some (PyNum.float 0), some [2.4, 0.1, 0.1], none⟩

def feCell : List (List Dec) :=
  [[2.8403, 0, 1.7391821518091137e-16],
   [-1.7391821518091137e-16, 2.8403, 1.7391821518091137e-16],
   [0, 0, 2.8403]]

def feInput : StructInput :=
  ⟨some feCell, some [true, true, true], [feSite1, feSite2], none, none, none⟩

/-- The same iron sites with no kind name supplied. -/
def feInputNoKind : StructInput :=
  ⟨some feCell, some [true, true, true],
    [{ feSite1 with kind_name := none }, { feSite2 with kind_name := none }],
    none, none, none⟩

/-- The alloy example: one CuAl site with weights (0.5, 0.5). -/
def cuAlSite : SiteInput :=
  ⟨"CuAl", [0, 0, 0], none, none, none, none, some [PyNum.float 0.5, PyNum.float 0.5]⟩

def cuAlInput : StructInput :=
  ⟨some [[0, 1.8, 1.8], [1.8, 0, 1.8], [1.8, 1.8, 0]], some [true, true, true],
    [cuAlSite], none, none, none⟩

/-- A single-symbol site with weights (0.5,): a vacancy. -/
def vacSite : SiteInput :=
  ⟨"Cu", [0, 0, 0], none, none, none, none, some [PyNum.float 0.5]⟩

def vacInput : StructInput :=
  ⟨some [[0, 1.8, 1.8], [1.8, 0, 1.8], [1.8, 1.8, 0]], some [true, true, true],
    [vacSite], none, none, none⟩

/-- The two site mappings fed to add_atom in the from-scratch example. -/
def nb14a : SiteInput :=
  ⟨"Si", [0.75, 0.75, 0.75], some "Si2", none, some (PyNum.int 1), none, none⟩

def nb14b : SiteInput :=
  ⟨"Si", [0.5, 0.5, 0.5], some "Si1", none, some (PyNum.int 0), none, none⟩

/-- The from-scratch builder of the add_atom example: empty
construction, set_cell, then two add_atom calls. -/
def nb14props : Except (List String) StructProps :=
  (validateStructure emptyInput).map Prod.fst >>= fun b =>
    addAtom (setCell b [[0, 1.8, 1.8], [1.8, 0, 1.8], [1.8, 1.8, 0]]) nb14a >>= fun b2 =>
      addAtom b2 nb14b

/-- Fallback values for total extraction from `Except` results. -/
def dummySite : Site := ⟨"", "", [], 0, PyNum.int 0, none, []⟩

def dummyProps : StructProps := ⟨defaultCell, [true, true, true], [], none, none, none⟩

/-- The validated silicon structure of the first notebook cell. -/
def siProps : StructProps :=
  ((validateStructure siInput).toOption.map Prod.fst).getD dummyProps

/-! Helper lemmas. -/

theorem toRat_one : (1 : Dec).toRat = 1 := by
  show Dec.toRat ⟨1, 0⟩ = 1
  simp [Dec.toRat]

theorem det3_toRat (c : List (List Dec)) : (det3 c).toRat = tripleProductQ c := by
  simp only [det3, tripleProductQ, dotQ, crossQ, rowQ, toRat_add, toRat_sub, toRat_mul]
  ring

theorem map_zipWith_keep {α β γ : Type} (f : α → β → α) (g : α → γ)
    (hfg : ∀ s c, g (f s c) = g s) :
    ∀ (l : List α) (cs : List β), cs.length = l.length →
      (List.zipWith f l cs).map g = l.map g := by
  intro l
  induction l with
  | nil => intro cs h; simp
  | cons s t ih =>
    intro cs h
    cases cs with
    | nil => simp at h
    | cons c ct =>
      simp only [List.zipWith, List.map, hfg]
      rw [ih ct (by simpa using h)]

theorem map_zipWith_set {α β γ : Type} (f : α → β → α) (g : α → γ) (h2 : β → γ)
    (hfg : ∀ s c, g (f s c) = h2 c) :
    ∀ (l : List α) (cs : List β), cs.length = l.length →
      (List.zipWith f l cs).map g = cs.map h2 := by
  intro l
  induction l with
  | nil => intro cs h; simp at h; simp [h]
  | cons s t ih =>
    intro cs h
    cases cs with
    | nil => simp at h
    | cons c ct =>
      simp only [List.zipWith, List.map, hfg]
      rw [ih ct (by simpa using h)]

/-! Claim theorems. -/

/-- C5: for every structure, the dumped `cell_volume` equals the
absolute value of the scalar triple product of the three cell
row-vectors and is non-negative; on the recorded cell
`[[2.75,2.75,0],[0,2.75,2.75],[2.75,0,2.75]]` it is exactly
`41.59375`. -/
theorem c5_cell_volume (p : StructProps) (detect : Bool) :
    ((toDict p detect).cell_volume).toRat = |tripleProductQ p.cell|
    ∧ 0 ≤ ((toDict p detect).cell_volume).toRat
    ∧ (validateStructure siInput).toOption.map
        (fun r => (toDict r.1 false).cell_volume) = some 41.59375 := by
  have hproj : (toDict p detect).cell_volume = cellVolume p.cell := by
    simp only [toDict]
  have hvol : ((toDict p detect).cell_volume).toRat = |tripleProductQ p.cell| := by
    rw [hproj, cellVolume, toRat_abs, det3_toRat]
  refine ⟨hvol, ?_, by decide⟩
  rw [hvol]
  exact abs_nonneg _

/-- C6: structure-level `is_alloy` holds exactly when some site has
more than one weighted species, and `has_vacancies` exactly when some
site's weights sum below one; the recorded CuAl site with weights
(0.5, 0.5) gives `is_alloy = true`, `has_vacancies = false`, and a
single-symbol site with weights (0.5,) gives `has_vacancies = true`. -/
theorem c6_alloy_vacancies (p : StructProps) :
    (p.is_alloy = true ↔ ∃ s ∈ p.sites, 1 < s.weights.length)
    ∧ (p.has_vacancies = true ↔ ∃ s ∈ p.sites, (weightSum s.weights).toRat < 1)
    ∧ (validateStructure cuAlInput).toOption.map
        (fun r => (r.1.is_alloy, r.1.has_vacancies)) = some (true, false)
    ∧ (validateStructure vacInput).toOption.map
        (fun r => r.1.has_vacancies) = some true := by
  refine ⟨?_, ?_, by decide, by decide⟩
  · simp [StructProps.is_alloy, Site.is_alloy, List.any_eq_true]
  · simp only [StructProps.has_vacancies, List.any_eq_true, Site.has_vacancies,
      blt_iff_toRat, toRat_one]

/-- C7: a missing `cell` never makes construction fail by itself:
validating an input whose `cell` key is absent gives exactly the result
of validating the same input with the default cell substituted, with
the non-fatal warning `using default cell` prepended; the default cell
is non-degenerate, and the recorded empty construction call succeeds
with exactly that warning. -/
theorem c7_missing_cell (d : StructInput) (h : d.cell = none) :
    validateStructure d = (validateStructure { d with cell := some defaultCell }).map
      (fun r => (r.1, "using default cell" :: r.2))
    ∧ det3 defaultCell ≠ 0
    ∧ (validateStructure emptyInput).toOption.map Prod.snd
        = some ["using default cell"] := by
  refine ⟨?_, by decide, by decide⟩
  obtain ⟨c, pb, st, tc, tm, cu⟩ := d
  simp only at h
  subst h
  simp only [validateStructure]
  cases validateFields defaultCell pb st tc tm cu <;> rfl

/-- Witness for C7: the recorded empty construction call has no cell. -/
theorem c7_missing_cell_witness :
    validateStructure emptyInput
        = (validateStructure { emptyInput with cell := some defaultCell }).map
          (fun r => (r.1, "using default cell" :: r.2))
    ∧ det3 defaultCell ≠ 0
    ∧ (validateStructure emptyInput).toOption.map Prod.snd
        = some ["using default cell"] :=
  c7_missing_cell emptyInput rfl

theorem except_ite_ok_cond {α ε : Type} {c : Prop} [Decidable c] {E : ε} {x s : α}
    (h : (if c then Except.ok x else Except.error E) = Except.ok s) : c ∧ x = s := by
  split at h
  · exact ⟨by assumption, by injection h⟩
  · exact Except.noConfusion h

theorem ite_nil_pos {c : Prop} [Decidable c] {m : String}
    (h : (if c then [] else [m]) = []) : c := by
  split at h
  · assumption
  · exact absurd h (by simp)

/-- A site accepted by the validating construction path satisfies the
per-site invariants `validSiteB` enforces. -/
theorem validateSite_ok_valid (a : SiteInput) (s : Site)
    (h : validateSite a = Except.ok s) : validSiteB s = true := by
  simp only [validateSite] at h
  obtain ⟨hcond, hx⟩ := except_ite_ok_cond h
  rw [List.append_eq_nil, List.append_eq_nil, List.append_eq_nil, List.append_eq_nil] at hcond
  obtain ⟨⟨⟨⟨h1, h2⟩, h3⟩, h4⟩, _⟩ := hcond
  have hpos : a.position.length = 3 := ite_nil_pos h1
  have hsym : ¬(parseSymbols a.symbol).isEmpty = true := by
    intro hc
    rw [if_pos hc] at h2
    exact absurd h2 (by simp)
  have hlen : (a.weights.getD [PyNum.int 1]).length = (parseSymbols a.symbol).length :=
    ite_nil_pos h3
  have hsum : (Dec.blt 0 (weightSum (a.weights.getD [PyNum.int 1]))
      && Dec.ble (weightSum (a.weights.getD [PyNum.int 1])) 1) = true := ite_nil_pos h4
  obtain ⟨hblt, hble⟩ := (Bool.and_eq_true _ _).mp hsum
  have hsymF : (parseSymbols a.symbol).isEmpty = false := Bool.eq_false_iff.mpr hsym
  rw [← hx]
  simp only [validSiteB]
  simp [hpos, hlen, hsymF, hblt, hble]

/-- A field state accepted by the schema validation satisfies
`validProps`. -/
theorem validateFields_ok_valid (cell : List (List Dec)) (pbcIn : Option (List Bool))
    (sitesIn : List SiteInput) (tc tm : Option Dec) (cu : Option (List (String × String)))
    (p : StructProps) (h : validateFields cell pbcIn sitesIn tc tm cu = Except.ok p) :
    validProps p = true := by
  simp only [validateFields] at h
  obtain ⟨hcond, hx⟩ := except_ite_ok_cond h
  rw [List.append_eq_nil, List.append_eq_nil] at hcond
  obtain ⟨⟨hcell, hpbc⟩, _⟩ := hcond
  have hcellSh : (cell.length = 3 && cell.all (fun r => r.length = 3)) = true :=
    ite_nil_pos hcell
  have hpbcSh : (pbcIn.getD [true, true, true]).length = 3 := ite_nil_pos hpbc
  have hsites : ∀ s ∈ (sitesIn.map validateSite).filterMap Except.toOption,
      validSiteB s = true := by
    intro s hs
    obtain ⟨r, hr, hrs⟩ := List.mem_filterMap.mp hs
    obtain ⟨a, _, ha⟩ := List.mem_map.mp hr
    cases r with
    | error e => exact absurd hrs (by simp [Except.toOption])
    | ok x =>
      have hx2 : x = s := by simpa [Except.toOption] using hrs
      exact hx2 ▸ validateSite_ok_valid a x ha
  rw [← hx]
  simp only [validProps, Bool.and_eq_true] at hcellSh ⊢
  refine ⟨⟨⟨hcellSh.1, hcellSh.2⟩, by simpa using hpbcSh⟩, ?_⟩
  rw [List.all_eq_true]
  intro s hs
  exact hsites s hs

/-- A structure accepted by the full construction validation satisfies
`validProps`. -/
theorem validateStructure_ok_valid (d : StructInput) (p : StructProps) (w : List String)
    (h : validateStructure d = Except.ok (p, w)) : validProps p = true := by
  cases hc : d.cell with
  | none =>
    simp only [validateStructure, hc] at h
    cases hE : validateFields defaultCell d.pbc d.sites d.tot_charge d.tot_magnetization
        d.custom with
    | error e => simp [Except.map, hE] at h
    | ok q =>
      simp only [Except.map, hE, Except.ok.injEq, Prod.mk.injEq] at h
      exact h.1 ▸ validateFields_ok_valid _ _ _ _ _ _ q hE
  | some c =>
    simp only [validateStructure, hc] at h
    cases hE : validateFields c d.pbc d.sites d.tot_charge d.tot_magnetization d.custom with
    | error e => simp [Except.map, hE] at h
    | ok q =>
      simp only [Except.map, hE, Except.ok.injEq, Prod.mk.injEq] at h
      exact h.1 ▸ validateFields_ok_valid _ _ _ _ _ _ q hE

/-- C1: converting a valid builder to an immutable structure and back
(and an immutable structure to a builder and back) is an exact round
trip: the dumps agree field for field when no mutation happens in
between. Every immutable structure satisfies the validity hypothesis,
since construction only succeeds on states the validation accepts. -/
theorem c1_roundtrip_exact (b : StructureDataMutable) (s : StructureData)
    (hb : validProps b.props = true) (hs : validProps s.props = true) :
    (b.to_immutable).toOption.map (fun t => (t.to_mutable).to_dict false)
        = some (b.to_dict false)
    ∧ ((s.to_mutable).to_immutable).toOption.map (fun t => t.to_dict false)
        = some (s.to_dict false)
    ∧ (∀ (d : StructInput) (p : StructProps) (w : List String),
        validateStructure d = Except.ok (p, w) → validProps p = true) := by
  refine ⟨?_, ?_, validateStructure_ok_valid⟩
  · rw [StructureDataMutable.to_immutable, if_pos hb]
    rfl
  · rw [StructureData.to_mutable, StructureDataMutable.to_immutable, if_pos hs]
    rfl

/-- Witness for C1 at the validated silicon structure. -/
theorem c1_roundtrip_exact_witness :
    ((⟨siProps⟩ : StructureDataMutable).to_immutable).toOption.map
        (fun t => (t.to_mutable).to_dict false)
        = some ((⟨siProps⟩ : StructureDataMutable).to_dict false)
    ∧ (((⟨siProps⟩ : StructureData).to_mutable).to_immutable).toOption.map
        (fun t => t.to_dict false)
        = some ((⟨siProps⟩ : StructureData).to_dict false) :=
  ⟨(c1_roundtrip_exact ⟨siProps⟩ ⟨siProps⟩ (by decide) (by decide)).1,
   (c1_roundtrip_exact ⟨siProps⟩ ⟨siProps⟩ (by decide) (by decide)).2.1⟩

/-- C8: the bulk per-site setters fail with a LengthMismatchError on a
list whose length differs from the site count (returning only the
error, so the builder value is untouched), and with a matching length
they apply the values positionally, leaving every other site field and
every non-site field unchanged; `set_charges` stores its values as
floats. -/
theorem c8_bulk_setters (b : StructProps) (csbad : List PyNum) (ksbad : List String)
    (cs : List PyNum) (ks : List String) (b1 b2 : StructProps)
    (hbad1 : csbad.length ≠ b.sites.length) (hbad2 : ksbad.length ≠ b.sites.length)
    (hok1 : setCharges b cs = Except.ok b1) (hok2 : set_kind_names b ks = Except.ok b2) :
    setCharges b csbad = Except.error ["LengthMismatchError"]
    ∧ set_kind_names b ksbad = Except.error ["LengthMismatchError"]
    ∧ b1.sites.map Site.charge = cs.map PyNum.toFloat
    ∧ b1.sites.map Site.symbol = b.sites.map Site.symbol
    ∧ b1.sites.map Site.kind_name = b.sites.map Site.kind_name
    ∧ b1.sites.map Site.position = b.sites.map Site.position
    ∧ b1.sites.map Site.mass = b.sites.map Site.mass
    ∧ b1.sites.map Site.magmom = b.sites.map Site.magmom
    ∧ b1.sites.map Site.weights = b.sites.map Site.weights
    ∧ b1.cell = b.cell ∧ b1.pbc = b.pbc ∧ b1.custom = b.custom
    ∧ b1.tot_charge = b.tot_charge ∧ b1.tot_magnetization = b.tot_magnetization
    ∧ b2.sites.map Site.kind_name = ks
    ∧ b2.sites.map Site.charge = b.sites.map Site.charge
    ∧ b2.sites.map Site.symbol = b.sites.map Site.symbol
    ∧ b2.sites.map Site.magmom = b.sites.map Site.magmom
    ∧ b2.sites.map Site.weights = b.sites.map Site.weights
    ∧ b2.cell = b.cell ∧ b2.pbc = b.pbc ∧ b2.custom = b.custom := by
  have hlen1 : cs.length = b.sites.length := by
    by_contra hne
    rw [setCharges, if_neg hne] at hok1
    exact Except.noConfusion hok1
  have hlen2 : ks.length = b.sites.length := by
    by_contra hne
    rw [set_kind_names, if_neg hne] at hok2
    exact Except.noConfusion hok2
  have hb1 : b1 = { b with
      sites := List.zipWith (fun s c => { s with charge := c.toFloat }) b.sites cs } := by
    rw [setCharges, if_pos hlen1] at hok1
    injection hok1 with h
    exact h.symm
  have hb2 : b2 = { b with
      sites := List.zipWith (fun s k => { s with kind_name := k }) b.sites ks } := by
    rw [set_kind_names, if_pos hlen2] at hok2
    injection hok2 with h
    exact h.symm
  subst hb1
  subst hb2
  have hKeep1 : ∀ {γ : Type} (g : Site → γ),
      (∀ s c, g { s with charge := PyNum.toFloat c } = g s) →
      (List.zipWith (fun s c => { s with charge := PyNum.toFloat c }) b.sites cs).map g
        = b.sites.map g :=
    fun g hf => map_zipWith_keep _ g hf b.sites cs hlen1
  have hKeep2 : ∀ {γ : Type} (g : Site → γ),
      (∀ s k, g { s with kind_name := k } = g s) →
      (List.zipWith (fun s k => { s with kind_name := k }) b.sites ks).map g
        = b.sites.map g :=
    fun g hf => map_zipWith_keep _ g hf b.sites ks hlen2
  refine ⟨by rw [setCharges, if_neg hbad1], by rw [set_kind_names, if_neg hbad2],
    map_zipWith_set (fun s c => { s with charge := PyNum.toFloat c }) Site.charge
      PyNum.toFloat (fun s c => rfl) b.sites cs hlen1,
    hKeep1 Site.symbol (fun s c => rfl),
    hKeep1 Site.kind_name (fun s c => rfl),
    hKeep1 Site.position (fun s c => rfl),
    hKeep1 Site.mass (fun s c => rfl),
    hKeep1 Site.magmom (fun s c => rfl),
    hKeep1 Site.weights (fun s c => rfl),
    rfl, rfl, rfl, rfl, rfl,
    map_zipWith_set (fun s k => { s with kind_name := k }) Site.kind_name
      id (fun s k => rfl) b.sites ks hlen2 |>.trans (List.map_id ks),
    hKeep2 Site.charge (fun s k => rfl),
    hKeep2 Site.symbol (fun s k => rfl),
    hKeep2 Site.magmom (fun s k => rfl),
    hKeep2 Site.weights (fun s k => rfl),
    rfl, rfl, rfl⟩

/-- Charges after the matched-length bulk set on the silicon structure. -/
def c8b1 : StructProps :=
  (setCharges siProps [PyNum.int 1, PyNum.int 0]).toOption.getD dummyProps

/-- Kind names after the matched-length bulk set on the silicon structure. -/
def c8b2 : StructProps :=
  (set_kind_names siProps ["Si2", "Si1"]).toOption.getD dummyProps

/-- Witness for C8: three values on the 2-site silicon structure
mismatch, two values apply. -/
theorem c8_bulk_setters_witness :
    setCharges siProps [PyNum.int 1, PyNum.int 0, PyNum.int 1]
        = Except.error ["LengthMismatchError"]
    ∧ set_kind_names siProps ["a", "b", "c"] = Except.error ["LengthMismatchError"] :=
  ⟨(c8_bulk_setters siProps [PyNum.int 1, PyNum.int 0, PyNum.int 1] ["a", "b", "c"]
      [PyNum.int 1, PyNum.int 0] ["Si2", "Si1"] c8b1 c8b2
      (by decide) (by decide) rfl rfl).1,
   (c8_bulk_setters siProps [PyNum.int 1, PyNum.int 0, PyNum.int 1] ["a", "b", "c"]
      [PyNum.int 1, PyNum.int 0] ["Si2", "Si1"] c8b1 c8b2
      (by decide) (by decide) rfl rfl).2.1⟩

/-- C9 counterexample: in the recorded from-scratch builder (two Si
sites stored with integer weights `(1,)`), slicing `[:1]` returns a
site whose weights are the float tuple `(1.0,)`, so the sliced site is
not a verbatim copy of the source's first site. -/
theorem c9_counterexample :
    nb14props.toOption.map (fun b =>
        ((sliceStruct b 0 1).sites.map Site.weights, (b.sites.take 1).map Site.weights))
      = some ([[PyNum.float 1]], [[PyNum.int 1]])
    ∧ PyNum.float 1 ≠ PyNum.int 1
    ∧ nb14props.toOption.map (fun b => decide ((sliceStruct b 0 1).sites = b.sites.take 1))
      = some false := by
  refine ⟨by decide, by decide, by decide⟩

/-- C9 as amended: slicing keeps `cell`, `pbc`, `custom`, `tot_charge`
and `tot_magnetization` verbatim and keeps every field of each selected
site verbatim except `weights`, which are coerced to floats; the result
has the mutability of its source (slicing a builder yields a builder,
slicing an immutable structure an immutable structure, both wrapping
the same sliced field state), and the source value itself is not
touched. -/
theorem c9_slice_fields (b : StructProps) (i j : Nat) :
    (sliceStruct b i j).cell = b.cell
    ∧ (sliceStruct b i j).pbc = b.pbc
    ∧ (sliceStruct b i j).custom = b.custom
    ∧ (sliceStruct b i j).tot_charge = b.tot_charge
    ∧ (sliceStruct b i j).tot_magnetization = b.tot_magnetization
    ∧ (sliceStruct b i j).sites.map Site.symbol
        = ((b.sites.drop i).take (j - i)).map Site.symbol
    ∧ (sliceStruct b i j).sites.map Site.kind_name
        = ((b.sites.drop i).take (j - i)).map Site.kind_name
    ∧ (sliceStruct b i j).sites.map Site.position
        = ((b.sites.drop i).take (j - i)).map Site.position
    ∧ (sliceStruct b i j).sites.map Site.mass
        = ((b.sites.drop i).take (j - i)).map Site.mass
    ∧ (sliceStruct b i j).sites.map Site.charge
        = ((b.sites.drop i).take (j - i)).map Site.charge
    ∧ (sliceStruct b i j).sites.map Site.magmom
        = ((b.sites.drop i).take (j - i)).map Site.magmom
    ∧ (sliceStruct b i j).sites.map Site.weights
        = ((b.sites.drop i).take (j - i)).map (fun s => s.weights.map PyNum.toFloat)
    ∧ (StructureDataMutable.slice ⟨b⟩ i j).props = sliceStruct b i j
    ∧ (StructureData.slice ⟨b⟩ i j).props = sliceStruct b i j := by
  refine ⟨rfl, rfl, rfl, rfl, rfl, ?_, ?_, ?_, ?_, ?_, ?_, ?_, rfl, rfl⟩
  all_goals
    simp only [sliceStruct, List.map_map]
    rfl

/-- The sites of the recorded from-scratch builder. -/
def nb14sites : List Site := (nb14props.toOption.getD dummyProps).sites

/-- C10 counterexample: a site stored with integer weights `(1,)` does
not reappear with float weights `(1.0,)` after add_atom: re-adding its
site mapping yields integer weights `(1,)` again (the recorded re-add
of dumped sites even turns float weights `(1.0,)` back into `(1,)`). -/
theorem c10_counterexample :
    (addAtom dummyProps { nb14a with weights := some [PyNum.int 1] }).toOption.map
        (fun q => q.sites.map Site.weights) = some [[PyNum.int 1]]
    ∧ (addAtom dummyProps { nb14a with weights := some [PyNum.float 1] }).toOption.map
        (fun q => q.sites.map Site.weights) = some [[PyNum.int 1]]
    ∧ PyNum.int 1 ≠ PyNum.float 1 := by
  refine ⟨by decide, by decide, by decide⟩

/-- C10 as amended: integer inputs to `set_charges` are stored as
floats; slicing coerces stored weights to floats; but `add_atom`
does not float-coerce the supplied weights - it discards them and
stores the default integer tuple `(1,)`. -/
theorem c10_numeric_coercions (b : StructProps) (cs : List PyNum) (b1 p : StructProps)
    (a : SiteInput) (i j : Nat)
    (h1 : setCharges b cs = Except.ok b1) (h2 : addAtom b a = Except.ok p) :
    b1.sites.map Site.charge = cs.map PyNum.toFloat
    ∧ PyNum.toFloat (PyNum.int 1) = PyNum.float 1
    ∧ (sliceStruct b i j).sites.map Site.weights
        = ((b.sites.drop i).take (j - i)).map (fun s => s.weights.map PyNum.toFloat)
    ∧ p.sites.map Site.weights = b.sites.map Site.weights ++ [[PyNum.int 1]] := by
  have hlen : cs.length = b.sites.length := by
    by_contra hne
    rw [setCharges, if_neg hne] at h1
    exact Except.noConfusion h1
  have hb1 : b1 = { b with
      sites := List.zipWith (fun s c => { s with charge := PyNum.toFloat c }) b.sites cs } := by
    rw [setCharges, if_pos hlen] at h1
    injection h1 with h
    exact h.symm
  subst hb1
  refine ⟨map_zipWith_set (fun s c => { s with charge := PyNum.toFloat c }) Site.charge
      PyNum.toFloat (fun s c => rfl) b.sites cs hlen, rfl, ?_, ?_⟩
  · simp only [sliceStruct, List.map_map]
    rfl
  · simp only [addAtom] at h2
    split at h2
    · exact Except.noConfusion h2
    · injection h2 with h
      rw [← h]
      simp [List.map_append]

/-- Result of the concrete add_atom call of the C10 witness. -/
def c10p : StructProps := (addAtom siProps nb14a).toOption.getD dummyProps

/-- Result of the concrete set_charges call of the C10 witness. -/
def c10b1 : StructProps :=
  (setCharges siProps [PyNum.int 1, PyNum.int 0]).toOption.getD dummyProps

/-- Witness for C10 at the silicon structure. -/
theorem c10_numeric_coercions_witness :
    c10b1.sites.map Site.charge = [PyNum.int 1, PyNum.int 0].map PyNum.toFloat
    ∧ PyNum.toFloat (PyNum.int 1) = PyNum.float 1
    ∧ (sliceStruct siProps 0 1).sites.map Site.weights
        = ((siProps.sites.drop 0).take (1 - 0)).map (fun s => s.weights.map PyNum.toFloat)
    ∧ c10p.sites.map Site.weights = siProps.sites.map Site.weights ++ [[PyNum.int 1]] :=
  c10_numeric_coercions siProps [PyNum.int 1, PyNum.int 0] c10b1 c10p nb14a 0 1 rfl rfl

theorem except_ite_ok {α ε : Type} {c : Prop} [Decidable c] {E : ε} {x s : α}
    (h : (if c then Except.ok x else Except.error E) = Except.ok s) : x = s := by
  split at h
  · injection h
  · exact Except.noConfusion h

theorem assignNames_length (l seen : List (String × KindKey)) :
    (assignNames l seen).length = l.length := by
  induction l generalizing seen with
  | nil => rfl
  | cons t rest ih => simp [assignNames, ih]

theorem detectKinds_map_kind_name (sites : List Site) :
    (detectKinds sites).map Site.kind_name = assignNames (sites.map siteTag) [] := by
  rw [detectKinds,
    map_zipWith_set (fun s n => { s with kind_name := n, weights := s.weights.map PyNum.toFloat })
      Site.kind_name id (fun s n => rfl) sites (assignNames (sites.map siteTag) [])
      (by rw [assignNames_length, List.length_map]),
    List.map_id]

/-- C2 counterexample: in the recorded iron example both sites carry
the explicitly supplied kind name Fe, yet the dump with kind detection
renames them to Fe0 and Fe1. -/
theorem c2_counterexample :
    feInput.sites.map SiteInput.kind_name = [some "Fe", some "Fe"]
    ∧ (validateStructure feInput).toOption.map (fun r => (toDict r.1 true).kinds)
        = some ["Fe0", "Fe1"]
    ∧ (["Fe0", "Fe1"] : List String) ≠ ["Fe", "Fe"] := by
  refine ⟨by decide, by decide, by decide⟩

/-- C2 as amended: automatic kind detection assigns every site the
auto-generated name of its property group, paying no attention to the
kind names the sites carry - explicitly supplied kind names included:
the assigned names are invariant under any rewriting of the stored
kind names. -/
theorem c2_detection_ignores_kind_names (sites : List Site) (f : Site → String) :
    (detectKinds (sites.map (fun s => { s with kind_name := f s }))).map Site.kind_name
      = (detectKinds sites).map Site.kind_name := by
  rw [detectKinds_map_kind_name, detectKinds_map_kind_name, List.map_map]
  have hcomp : (siteTag ∘ fun s => { s with kind_name := f s }) = siteTag :=
    funext (fun s => rfl)
  rw [hcomp]

/-- C3 counterexample: the two recorded iron sites agree in symbol,
weights, mass and charge, carry no explicit kind name, and differ only
in magmom (and position), yet detection assigns them the distinct kind
names Fe0 and Fe1, not one shared name. -/
theorem c3_counterexample :
    feInputNoKind.sites.map SiteInput.kind_name = [none, none]
    ∧ feSite1.symbol = feSite2.symbol
    ∧ feSite1.weights = feSite2.weights
    ∧ feSite1.mass = feSite2.mass
    ∧ feSite1.charge = feSite2.charge
    ∧ feSite1.magmom ≠ feSite2.magmom
    ∧ (validateStructure feInputNoKind).toOption.map (fun r => (toDict r.1 true).kinds)
        = some ["Fe0", "Fe1"]
    ∧ ("Fe0" : String) ≠ "Fe1" := by
  refine ⟨by decide, by decide, by decide, by decide, by decide, by decide, by decide,
    by decide⟩

/-- C3 as amended: the detection policy includes the magnetic moment
in site kind-equality: two sites agreeing in symbol, weight values,
mass and charge value but differing in magmom receive the distinct
sequential names symbol0 and symbol1, while two sites agreeing in all
compared fields including magmom receive the same name symbol0. -/
theorem c3_magmom_in_kind_equality (s1 s2 : Site) (hsym : s2.symbol = s1.symbol)
    (hw : s2.weights.map PyNum.val = s1.weights.map PyNum.val)
    (hm : s2.mass = s1.mass) (hc : s2.charge.val = s1.charge.val) :
    (s2.magmom ≠ s1.magmom →
      (detectKinds [s1, s2]).map Site.kind_name = [s1.symbol ++ "0", s1.symbol ++ "1"])
    ∧ (s2.magmom = s1.magmom →
      (detectKinds [s1, s2]).map Site.kind_name = [s1.symbol ++ "0", s1.symbol ++ "0"]) := by
  have h0 : toString (0 : Nat) = "0" := rfl
  have h1 : toString (1 : Nat) = "1" := rfl
  constructor
  · intro hmag
    have hkey : kindKey s2 ≠ kindKey s1 := by
      intro hEq
      exact hmag (congrArg (fun t : KindKey => t.2.2.2) hEq)
    rw [detectKinds_map_kind_name]
    simp [assignNames, siteTag, firstDedup, firstDedupAux, idxOfKey, hsym, hkey, h0, h1]
  · intro hmag
    have hkey : kindKey s2 = kindKey s1 := by
      simp only [kindKey, hw, hm, hc, hmag]
    rw [detectKinds_map_kind_name]
    simp [assignNames, siteTag, firstDedup, firstDedupAux, idxOfKey, hsym, hkey, h0]

/-- The validated iron sites, constructed without a kind name. -/
def feValSite1 : Site :=
  (validateSite { feSite1 with kind_name := none }).toOption.getD dummySite

def feValSite2 : Site :=
  (validateSite { feSite2 with kind_name := none }).toOption.getD dummySite

/-- Witness for C3 at the recorded iron sites. -/
theorem c3_magmom_in_kind_equality_witness :
    (detectKinds [feValSite1, feValSite2]).map Site.kind_name
      = [feValSite1.symbol ++ "0", feValSite1.symbol ++ "1"] :=
  (c3_magmom_in_kind_equality feValSite1 feValSite2
    (by decide) (by decide) (by decide) (by decide)).1 (by decide)

/-- C4 counterexample: constructing a site without a magmom through
the validating construction path stores the zero vector, not an absent
value: the recorded first notebook cell dumps magmom `[0.0, 0.0, 0.0]`
for sites that were given none. -/
theorem c4_counterexample :
    (validateSite siSite1).toOption.map Site.magmom = some (some [0, 0, 0])
    ∧ (some [0, 0, 0] : Option (List Dec)) ≠ none := by
  refine ⟨by decide, by decide⟩

/-- C4 as amended: only the builder add_atom path preserves an absent
magmom (the appended site carries the site mapping's magmom verbatim,
so an omitted magmom stays `None`, distinguishable from an explicit
zero vector); the validating construction path zero-fills an omitted
magmom to `[0.0, 0.0, 0.0]`. -/
theorem c4_magmom_paths (b : StructProps) (a : SiteInput) (p : StructProps) (s : Site)
    (hadd : addAtom b a = Except.ok p) (hval : validateSite a = Except.ok s) :
    p.sites.map Site.magmom = b.sites.map Site.magmom ++ [a.magmom]
    ∧ s.magmom = some (a.magmom.getD [0, 0, 0]) := by
  constructor
  · simp only [addAtom] at hadd
    split at hadd
    · exact Except.noConfusion hadd
    · injection hadd with h
      rw [← h]
      simp [List.map_append]
  · simp only [validateSite] at hval
    have h := except_ite_ok hval
    rw [← h]

/-- The site appended by the concrete add_atom call of the C4 witness. -/
def c4p : StructProps := (addAtom dummyProps nb14a).toOption.getD dummyProps

/-- The site produced by the concrete validation call of the C4 witness. -/
def c4s : Site := (validateSite nb14a).toOption.getD dummySite

/-- Witness for C4: the recorded add_atom site mapping, which has no
magmom. -/
theorem c4_magmom_paths_witness :
    c4p.sites.map Site.magmom = dummyProps.sites.map Site.magmom ++ [nb14a.magmom]
    ∧ c4s.magmom = some (nb14a.magmom.getD [0, 0, 0]) :=
  c4_magmom_paths dummyProps nb14a c4p c4s rfl rfl

end Atomistic
